import Mathlib

/-!
Shallow embedding of the action-resolution and progression engine of the
jixian-xiuxian repository (version `v2.0-enterprise`): `models.py`,
`actions.py`, `rules.py` and `core/game_core.py`.

Conventions of the embedding:
* Python integers are modelled as `Nat`.  All quantities handled by the
  engine (hit points, mana, pills, experience, counters, amounts) are
  non-negative in every reachable state, and `max 0 (x - a)` on such values
  is exactly truncated subtraction on `Nat`.
* Python mutation is modelled by explicit state passing: a method that
  mutates `self` and returns `r` becomes a function returning `State × r`.
* `random.randint(1, 10)` in `TalentComponent.__init__` is modelled by an
  explicit `talent_value` argument: the drawn value is an input of the
  embedding.
* The float multipliers `0.8 / 1.5 / 1.0` of `TalentComponent` are modelled
  as exact rationals.  On the whole domain the game uses (integer talent
  `0..10`, bases 3, 5, 8, 12, 15), `int(base + talent * m)` computed with
  IEEE doubles coincides with `⌊base + talent * m⌋` over `ℚ`: the only
  products that land on an integer (`5 * 0.8` and `10 * 0.8`) round to that
  exact integer as doubles.
* Python `int()` truncates toward zero; every value it is applied to here
  is non-negative, where truncation is the floor.
-/

namespace Xiuxian

/-- `RealmLevel` enum of `models.py` (member order as declared). -/
inductive RealmLevel where
  | qiRefining
  | foundation
  | coreFormation
  | nascentSoul
  | spiritualTransformation
  | ascension
deriving DecidableEq, Repr

/-- The `.value` string of each `RealmLevel` member. -/
def RealmLevel.value : RealmLevel → String
  | .qiRefining => "炼气期"
  | .foundation => "筑基期"
  | .coreFormation => "结丹期"
  | .nascentSoul => "元婴期"
  | .spiritualTransformation => "化神期"
  | .ascension => "飞升"

/-- `list(RealmLevel)` in declaration order. -/
def realmList : List RealmLevel :=
  [.qiRefining, .foundation, .coreFormation, .nascentSoul,
   .spiritualTransformation, .ascension]

/-- `realms[current_index + 1]`: the successor in the ladder.  The
`ascension` case is unreachable in `add_experience`, whose guard
`current_index < len(realms) - 1` excludes the last member; we map it to
itself. -/
def nextRealm : RealmLevel → RealmLevel
  | .qiRefining => .foundation
  | .foundation => .coreFormation
  | .coreFormation => .nascentSoul
  | .nascentSoul => .spiritualTransformation
  | .spiritualTransformation => .ascension
  | .ascension => .ascension

/-- `realm_thresholds` table of `ExperienceComponent.__init__`;
`float('inf')` for `ASCENSION` is modelled as `none` (no finite
experience value ever satisfies `x >= inf`). -/
def realm_thresholds : RealmLevel → Option Nat
  | .qiRefining => some 100
  | .foundation => some 200
  | .coreFormation => some 400
  | .nascentSoul => some 800
  | .spiritualTransformation => some 1600
  | .ascension => none

/-- `models.Cost` dataclass. -/
structure Cost where
  hp : Nat := 0
  mp : Nat := 0
  pills : Nat := 0
  time : Nat := 0
deriving DecidableEq, Repr

/-- `models.HealthComponent` (fields `max_hp`, `current_hp`; the unused
`recovery_rate` is omitted). -/
structure HealthComponent where
  max_hp : Nat
  current_hp : Nat
deriving DecidableEq, Repr

/-- `HealthComponent.__init__`: `current_hp` starts at `max_hp`; every
construction in this codebase uses the default `max_hp = 100`. -/
def HealthComponent.init : HealthComponent :=
  { max_hp := 100, current_hp := 100 }

/-- `HealthComponent.restore`: clamp at `max_hp`, return actual delta. -/
def HealthComponent.restore (h : HealthComponent) (amount : Nat) :
    HealthComponent × Nat :=
  let new_hp := min h.max_hp (h.current_hp + amount)
  ({ h with current_hp := new_hp }, new_hp - h.current_hp)

/-- `HealthComponent.consume`: `max(0, current_hp - amount)` (= truncated
subtraction), return actual delta removed. -/
def HealthComponent.consume (h : HealthComponent) (amount : Nat) :
    HealthComponent × Nat :=
  let new_hp := h.current_hp - amount
  ({ h with current_hp := new_hp }, h.current_hp - new_hp)

/-- `HealthComponent.is_alive`. -/
def HealthComponent.is_alive (h : HealthComponent) : Bool :=
  h.current_hp > 0

/-- `models.ManaComponent` (fields `max_mp`, `current_mp`; the unused
`recovery_rate` is omitted). -/
structure ManaComponent where
  max_mp : Nat
  current_mp : Nat
deriving DecidableEq, Repr

/-- `ManaComponent.__init__`: starts at `max_mp // 2`; every construction
in this codebase uses the default `max_mp = 100`. -/
def ManaComponent.init : ManaComponent :=
  { max_mp := 100, current_mp := 100 / 2 }

/-- `ManaComponent.restore`: clamp at `max_mp`, return actual delta. -/
def ManaComponent.restore (m : ManaComponent) (amount : Nat) :
    ManaComponent × Nat :=
  let new_mp := min m.max_mp (m.current_mp + amount)
  ({ m with current_mp := new_mp }, new_mp - m.current_mp)

/-- `ManaComponent.consume`: all-or-nothing, boolean success. -/
def ManaComponent.consume (m : ManaComponent) (amount : Nat) :
    ManaComponent × Bool :=
  if m.current_mp ≥ amount then
    ({ m with current_mp := m.current_mp - amount }, true)
  else
    (m, false)

/-- `models.ExperienceComponent`. -/
structure ExperienceComponent where
  total_experience : Nat
  current_level_experience : Nat
  current_realm : RealmLevel
deriving DecidableEq, Repr

/-- `ExperienceComponent.__init__`. -/
def ExperienceComponent.init : ExperienceComponent :=
  { total_experience := 0, current_level_experience := 0,
    current_realm := .qiRefining }

/-- `ExperienceComponent.add_experience`: returns the mutated component,
the breakthrough flag and the optional breakthrough message.  The `none`
threshold branch is the `ASCENSION` row, whose `float('inf')` threshold
makes the comparison `current_level_experience >= threshold` false.  The
inner guard `current_index < len(realms) - 1` holds whenever
`current_realm != ASCENSION`, so it introduces no extra case. -/
def ExperienceComponent.add_experience (e : ExperienceComponent)
    (amount : Nat) : ExperienceComponent × Bool × Option String :=
  let total := e.total_experience + amount
  let lvl := e.current_level_experience + amount
  match realm_thresholds e.current_realm with
  | some threshold =>
    if lvl ≥ threshold ∧ e.current_realm ≠ .ascension then
      let newRealm := nextRealm e.current_realm
      ({ total_experience := total, current_level_experience := lvl - threshold,
         current_realm := newRealm },
       true, some ("突破至 " ++ newRealm.value ++ "！"))
    else
      ({ e with total_experience := total, current_level_experience := lvl },
       false, none)
  | none =>
    ({ e with total_experience := total, current_level_experience := lvl },
     false, none)

/-- Python `int()` applied to the non-negative rationals produced by the
talent-bonus formula (truncation toward zero = floor there). -/
def pyIntNat (q : ℚ) : Nat :=
  (Int.floor q).toNat

/-- `models.TalentComponent` (field `base_talent`; the random draw of
`__init__` is an explicit input of the embedding). -/
structure TalentComponent where
  base_talent : Nat
deriving DecidableEq, Repr

/-- `TalentComponent.get_talent_bonus`: per-action-kind multiplier table
with default `1.0`; result `base_value + base_talent * multiplier` in ℚ. -/
def TalentComponent.get_talent_bonus (t : TalentComponent) (base_value : ℚ)
    (action_type : String) : ℚ :=
  let multiplier : ℚ :=
    if action_type = "meditate" then 4/5
    else if action_type = "cultivate" then 3/2
    else if action_type = "pill" then 1
    else 1
  base_value + t.base_talent * multiplier

/-- `int(self.talent.get_talent_bonus(base, kind))` as evaluated at every
call site in `actions.py`, computed in `Nat` so that it reduces in the
kernel: with the multiplier written as the exact fraction `p/q`
(`0.8 = 4/5`, `1.5 = 3/2`, `1.0 = 1`), truncation of the non-negative
value `base + talent * p/q` is `base + talent * p / q` in `Nat` division.
The lemma `talent_bonus_int_eq` below proves this equal to
`pyIntNat (get_talent_bonus base kind)`, the direct translation. -/
def TalentComponent.talent_bonus_int (t : TalentComponent)
    (base_value : Nat) (action_type : String) : Nat :=
  if action_type = "meditate" then base_value + t.base_talent * 4 / 5
  else if action_type = "cultivate" then base_value + t.base_talent * 3 / 2
  else if action_type = "pill" then base_value + t.base_talent
  else base_value + t.base_talent

/-- `models.InventoryComponent`: the `items` dict holds the single key
`"pill"`, modelled as that key's count. -/
structure InventoryComponent where
  pill : Nat
deriving DecidableEq, Repr

/-- `InventoryComponent.__init__`: `{"pill": 0}`. -/
def InventoryComponent.init : InventoryComponent := { pill := 0 }

/-- `InventoryComponent.add_item`: succeeds iff the kind is a key of
`items` (only `"pill"`). -/
def InventoryComponent.add_item (inv : InventoryComponent)
    (item_name : String) (amount : Nat) : InventoryComponent × Bool :=
  if item_name = "pill" then
    ({ pill := inv.pill + amount }, true)
  else
    (inv, false)

/-- `InventoryComponent.consume_item`: decrements only if the kind exists
and the count suffices, else no-op and failure. -/
def InventoryComponent.consume_item (inv : InventoryComponent)
    (item_name : String) (amount : Nat) : InventoryComponent × Bool :=
  if item_name = "pill" ∧ inv.pill ≥ amount then
    ({ pill := inv.pill - amount }, true)
  else
    (inv, false)

/-- `InventoryComponent.get_item_count` (`.get(name, 0)`). -/
def InventoryComponent.get_item_count (inv : InventoryComponent)
    (item_name : String) : Nat :=
  if item_name = "pill" then inv.pill else 0

/-- `models.CharacterStats` aggregate. -/
structure CharacterStats where
  name : String
  health : HealthComponent
  mana : ManaComponent
  experience : ExperienceComponent
  talent : TalentComponent
  inventory : InventoryComponent
  meditation_streak : Nat
  total_actions : Nat
deriving DecidableEq, Repr

/-- `CharacterStats.__init__` with the talent draw made explicit. -/
def CharacterStats.init (name : String) (talent_value : Nat) :
    CharacterStats :=
  { name := name
    health := HealthComponent.init
    mana := ManaComponent.init
    experience := ExperienceComponent.init
    talent := { base_talent := talent_value }
    inventory := InventoryComponent.init
    meditation_streak := 0
    total_actions := 0 }

/-- `CharacterStats.is_alive`. -/
def CharacterStats.is_alive (c : CharacterStats) : Bool :=
  c.health.is_alive

/-- `CharacterStats.can_perform_action`: affordability of a `Cost`
(`cost.time` does not appear). -/
def CharacterStats.can_perform_action (c : CharacterStats) (cost : Cost) :
    Bool :=
  c.health.current_hp ≥ cost.hp ∧
  c.mana.current_mp ≥ cost.mp ∧
  c.inventory.get_item_count "pill" ≥ cost.pills

/-- `CharacterStats.apply_cost`. -/
def CharacterStats.apply_cost (c : CharacterStats) (cost : Cost) :
    CharacterStats × Bool :=
  if c.can_perform_action cost then
    let health := (c.health.consume cost.hp).1
    let mana := (c.mana.consume cost.mp).1
    let inventory := (c.inventory.consume_item "pill" cost.pills).1
    ({ c with
        health := health
        mana := mana
        inventory := inventory
        total_actions := c.total_actions + 1 }, true)
  else
    (c, false)

/-- `models.GameLog`. -/
structure GameLog where
  entries : List String
  max_entries : Nat
deriving DecidableEq, Repr

/-- `GameLog.__init__`: always constructed with the default capacity
100. -/
def GameLog.init : GameLog :=
  { entries := [], max_entries := 100 }

/-- `GameLog.add_entry`: append, then drop the oldest entry while over
capacity. -/
def GameLog.add_entry (g : GameLog) (message : String) : GameLog :=
  let entries := g.entries ++ [message]
  if entries.length > g.max_entries then
    { g with entries := entries.drop 1 }
  else
    { g with entries := entries }

/-- Values occurring in the `effects`/`costs` dicts of an `ActionResult`
(integers, the `level_up: True` flag, the `new_level` realm name). -/
inductive PyVal where
  | i (n : Int)
  | b (v : Bool)
  | s (v : String)
deriving DecidableEq, Repr

/-- `models.ActionResult`; the dicts are modelled as association lists in
insertion order. -/
structure ActionResult where
  success : Bool
  message : String
  effects : List (String × PyVal)
  costs : List (String × PyVal)
deriving DecidableEq, Repr

/-- `Action.get_failure_message` of the base class. -/
def Action.base_failure_message (name : String) : String :=
  "无法执行" ++ name

namespace MeditateAction

def name : String := "打坐"

def get_cost : Cost := { hp := 1, time := 1 }

def can_execute (character : CharacterStats) : Bool :=
  character.is_alive

def get_failure_message (_character : CharacterStats) : String :=
  Action.base_failure_message name

/-- `MeditateAction.execute`.  The boolean returned by `apply_cost` is
discarded, as in the source.  `breakthrough_msg.getD ""` reads the message
that `add_experience` always supplies when `breakthrough` is true. -/
def execute (character : CharacterStats) (game_log : GameLog) :
    CharacterStats × GameLog × ActionResult :=
  if ¬ can_execute character then
    (character, game_log,
     ⟨false, get_failure_message character, [], []⟩)
  else
    let cost := get_cost
    let c := (character.apply_cost cost).1
    let mp_recovery := c.talent.talent_bonus_int 8 "meditate"
    let exp_gain := c.talent.talent_bonus_int 3 "meditate"
    let (mana, actual_mp_recovery) := c.mana.restore mp_recovery
    let c := { c with mana := mana }
    let (experience, breakthrough, breakthrough_msg) :=
      c.experience.add_experience exp_gain
    let c := { c with experience := experience }
    let c := { c with meditation_streak := c.meditation_streak + 1 }
    let (inventory, pill_bonus) :=
      if c.meditation_streak % 5 = 0 then
        ((c.inventory.add_item "pill" 1).1, 1)
      else
        (c.inventory, 0)
    let c := { c with inventory := inventory }
    let messages := ["你进入打坐修炼状态，恢复" ++ toString actual_mp_recovery ++
      "点仙力，获得" ++ toString exp_gain ++ "点经验"]
    let messages :=
      if breakthrough then messages ++ [breakthrough_msg.getD ""] else messages
    let messages :=
      if pill_bonus > 0 then
        messages ++ ["连续打坐" ++ toString c.meditation_streak ++ "次，获得" ++
          toString pill_bonus ++ "颗丹药！"]
      else messages
    let log_message := String.intercalate "，" messages
    let game_log := game_log.add_entry log_message
    let effects := [("mp_recovery", PyVal.i actual_mp_recovery),
                    ("exp_gain", PyVal.i exp_gain),
                    ("pill_bonus", PyVal.i pill_bonus)]
    let costs := [("hp", PyVal.i cost.hp), ("time", PyVal.i cost.time)]
    let effects :=
      if breakthrough then
        effects ++ [("level_up", PyVal.b true),
                    ("new_level", PyVal.s c.experience.current_realm.value)]
      else effects
    (c, game_log, ⟨true, log_message, effects, costs⟩)

end MeditateAction

namespace ConsumePillAction

def name : String := "吃丹药"

def get_cost : Cost := { pills := 1 }

def can_execute (character : CharacterStats) : Bool :=
  character.is_alive ∧ character.inventory.get_item_count "pill" ≥ 1

def get_failure_message (character : CharacterStats) : String :=
  if ¬ character.is_alive then "你已经无法行动"
  else if character.inventory.get_item_count "pill" < 1 then "没有丹药可用"
  else "无法服用丹药"

/-- `ConsumePillAction.execute`. -/
def execute (character : CharacterStats) (game_log : GameLog) :
    CharacterStats × GameLog × ActionResult :=
  if ¬ can_execute character then
    (character, game_log,
     ⟨false, get_failure_message character, [], []⟩)
  else
    let cost := get_cost
    let c := (character.apply_cost cost).1
    let hp_recovery := c.talent.talent_bonus_int 15 "pill"
    let mp_recovery := c.talent.talent_bonus_int 15 "pill"
    let exp_gain := c.talent.talent_bonus_int 5 "pill"
    let (health, actual_hp_recovery) := c.health.restore hp_recovery
    let c := { c with health := health }
    let (mana, actual_mp_recovery) := c.mana.restore mp_recovery
    let c := { c with mana := mana }
    let (experience, breakthrough, breakthrough_msg) :=
      c.experience.add_experience exp_gain
    let c := { c with experience := experience }
    let c := { c with meditation_streak := 0 }
    let messages := ["你服下一颗丹药，恢复" ++ toString actual_hp_recovery ++
      "点生命和" ++ toString actual_mp_recovery ++ "点仙力"]
    let messages :=
      if exp_gain > 0 then messages ++ ["获得" ++ toString exp_gain ++ "点经验"]
      else messages
    let messages :=
      if breakthrough then messages ++ [breakthrough_msg.getD ""] else messages
    let log_message := String.intercalate "，" messages ++ "。"
    let game_log := game_log.add_entry log_message
    let effects := [("hp_recovery", PyVal.i actual_hp_recovery),
                    ("mp_recovery", PyVal.i actual_mp_recovery),
                    ("exp_gain", PyVal.i exp_gain)]
    let costs := [("pills", PyVal.i cost.pills)]
    let effects :=
      if breakthrough then
        effects ++ [("level_up", PyVal.b true),
                    ("new_level", PyVal.s c.experience.current_realm.value)]
      else effects
    (c, game_log, ⟨true, log_message, effects, costs⟩)

end ConsumePillAction

namespace CultivateAction

def name : String := "修炼"

def get_cost : Cost := { mp := 20, time := 2 }

def can_execute (character : CharacterStats) : Bool :=
  character.is_alive ∧ character.mana.current_mp ≥ get_cost.mp

def get_failure_message (character : CharacterStats) : String :=
  if ¬ character.is_alive then "你已经无法行动"
  else if character.mana.current_mp < get_cost.mp then "仙力不足，无法修炼"
  else "无法修炼"

/-- `CultivateAction.execute`. -/
def execute (character : CharacterStats) (game_log : GameLog) :
    CharacterStats × GameLog × ActionResult :=
  if ¬ can_execute character then
    (character, game_log,
     ⟨false, get_failure_message character, [], []⟩)
  else
    let cost := get_cost
    let c := (character.apply_cost cost).1
    let exp_gain := c.talent.talent_bonus_int 12 "cultivate"
    let (experience, breakthrough, breakthrough_msg) :=
      c.experience.add_experience exp_gain
    let c := { c with experience := experience }
    let c := { c with meditation_streak := 0 }
    let messages := ["你运转心法，修为精进，获得" ++ toString exp_gain ++ "点经验"]
    let messages :=
      if breakthrough then messages ++ [breakthrough_msg.getD ""] else messages
    let log_message := String.intercalate "，" messages ++ "。"
    let game_log := game_log.add_entry log_message
    let effects := [("exp_gain", PyVal.i exp_gain)]
    let costs := [("mp", PyVal.i cost.mp), ("time", PyVal.i cost.time)]
    let effects :=
      if breakthrough then
        effects ++ [("level_up", PyVal.b true),
                    ("new_level", PyVal.s c.experience.current_realm.value)]
      else effects
    (c, game_log, ⟨true, log_message, effects, costs⟩)

end CultivateAction

namespace WaitAction

def name : String := "等待"

def get_cost : Cost := { hp := 1, time := 1 }

def can_execute (character : CharacterStats) : Bool :=
  character.is_alive

def get_failure_message (_character : CharacterStats) : String :=
  Action.base_failure_message name

/-- `WaitAction.execute`: fixed recovery constants, no talent scaling. -/
def execute (character : CharacterStats) (game_log : GameLog) :
    CharacterStats × GameLog × ActionResult :=
  if ¬ can_execute character then
    (character, game_log,
     ⟨false, get_failure_message character, [], []⟩)
  else
    let cost := get_cost
    let c := (character.apply_cost cost).1
    let hp_recovery := 2
    let mp_recovery := 3
    let (health, actual_hp_recovery) := c.health.restore hp_recovery
    let c := { c with health := health }
    let (mana, actual_mp_recovery) := c.mana.restore mp_recovery
    let c := { c with mana := mana }
    let c := { c with meditation_streak := 0 }
    let log_message := "你静心等待，恢复" ++ toString actual_hp_recovery ++
      "点生命和" ++ toString actual_mp_recovery ++ "点仙力。"
    let game_log := game_log.add_entry log_message
    let effects := [("hp_recovery", PyVal.i actual_hp_recovery),
                    ("mp_recovery", PyVal.i actual_mp_recovery)]
    let costs := [("hp", PyVal.i cost.hp), ("time", PyVal.i cost.time)]
    (c, game_log, ⟨true, log_message, effects, costs⟩)

end WaitAction

/-- The four action classes of `actions.py` as a closed variant set. -/
inductive GameAction where
  | meditate
  | consumePill
  | cultivate
  | wait
deriving DecidableEq, Repr

def GameAction.name : GameAction → String
  | .meditate => MeditateAction.name
  | .consumePill => ConsumePillAction.name
  | .cultivate => CultivateAction.name
  | .wait => WaitAction.name

def GameAction.get_cost : GameAction → Cost
  | .meditate => MeditateAction.get_cost
  | .consumePill => ConsumePillAction.get_cost
  | .cultivate => CultivateAction.get_cost
  | .wait => WaitAction.get_cost

def GameAction.can_execute (a : GameAction) (c : CharacterStats) : Bool :=
  match a with
  | .meditate => MeditateAction.can_execute c
  | .consumePill => ConsumePillAction.can_execute c
  | .cultivate => CultivateAction.can_execute c
  | .wait => WaitAction.can_execute c

def GameAction.get_failure_message (a : GameAction) (c : CharacterStats) :
    String :=
  match a with
  | .meditate => MeditateAction.get_failure_message c
  | .consumePill => ConsumePillAction.get_failure_message c
  | .cultivate => CultivateAction.get_failure_message c
  | .wait => WaitAction.get_failure_message c

def GameAction.execute (a : GameAction) (c : CharacterStats)
    (game_log : GameLog) : CharacterStats × GameLog × ActionResult :=
  match a with
  | .meditate => MeditateAction.execute c game_log
  | .consumePill => ConsumePillAction.execute c game_log
  | .cultivate => CultivateAction.execute c game_log
  | .wait => WaitAction.execute c game_log

/-- `ActionFactory.get_all_actions` (factory order). -/
def ActionFactory.get_all_actions : List GameAction :=
  [.meditate, .consumePill, .cultivate, .wait]

/-- `ActionFactory.get_action_by_name`: first action whose `name` matches. -/
def ActionFactory.get_action_by_name (action_name : String) :
    Option GameAction :=
  (ActionFactory.get_all_actions).find? (fun a => a.name = action_name)

/-- One entry of `DifficultySettings.difficulties` in `rules.py`.  The
float multipliers are modelled as exact rationals. -/
structure DifficultyConfig where
  talent_low : Nat
  talent_high : Nat
  starting_pills : Nat
  exp_multiplier : ℚ
  recovery_multiplier : ℚ
deriving DecidableEq, Repr

/-- `DifficultySettings.get_difficulty_settings`:
`self.difficulties.get(difficulty, self.difficulties["normal"])`. -/
def DifficultySettings.get_difficulty_settings (difficulty : String) :
    DifficultyConfig :=
  if difficulty = "easy" then ⟨5, 10, 3, 12/10, 13/10⟩
  else if difficulty = "normal" then ⟨1, 10, 1, 1, 1⟩
  else if difficulty = "hard" then ⟨1, 6, 0, 8/10, 7/10⟩
  else ⟨1, 10, 1, 1, 1⟩

/-- `DifficultySettings.apply_difficulty_to_character`: only the starting
pills are applied; the talent set at character creation is not modified
(per the comment in the source). -/
def DifficultySettings.apply_difficulty_to_character (c : CharacterStats)
    (difficulty : String) : CharacterStats :=
  let settings := DifficultySettings.get_difficulty_settings difficulty
  { c with inventory := (c.inventory.add_item "pill" settings.starting_pills).1 }

/-- `core/game_core.py` `GameCore` state.  The `available_actions` list is
the constant `ActionFactory.get_all_actions`; the `game_state` dict is a
derived cache (recomputed from the other fields) and the event dispatches
are fire-and-forget external collaborators — both omitted.  In the source
`game_log` is `None` until `init_game` runs; every path that reads
it also requires `character`, so modelling it as an (initially empty)
`GameLog` is observationally equivalent. -/
structure GameCore where
  character : Option CharacterStats
  game_log : GameLog
  is_game_over : Bool
  difficulty : String
deriving DecidableEq, Repr

/-- `GameCore.__init__`. -/
def GameCore.init : GameCore :=
  { character := none, game_log := GameLog.init, is_game_over := false,
    difficulty := "normal" }

/-- `GameCore.initialize_game` (here `init_game`) with the
`random.randint(1, 10)` talent
draw made an explicit input.  The `try` never fails on this path, so the
return is always `true`. -/
def GameCore.init_game (g : GameCore) (character_name : Option String)
    (difficulty : String) (talent_value : Nat) : GameCore × Bool :=
  let name := character_name.getD "无名修士"
  let ch := CharacterStats.init name talent_value
  let ch := DifficultySettings.apply_difficulty_to_character ch difficulty
  let log := GameLog.init
  let log := log.add_entry ("欢迎来到极简修仙世界，" ++ name ++ "！")
  let log := log.add_entry ("你的资质为 " ++ toString ch.talent.base_talent ++
    "，开始你的修仙之旅。")
  ({ g with
      character := some ch
      game_log := log
      is_game_over := false
      difficulty := difficulty }, true)

/-- `GameCore._check_game_over`.  The source compares
`current_realm.value == "飞升"`, which we keep literally. -/
def GameCore.check_game_over (g : GameCore) : GameCore :=
  match g.character with
  | none => g
  | some ch =>
    if ¬ ch.is_alive then
      { g with
          is_game_over := true
          game_log := g.game_log.add_entry "修炼失败，游戏结束。" }
    else if ch.experience.current_realm.value = "飞升" then
      { g with
          is_game_over := true
          game_log := g.game_log.add_entry "恭喜！你已成功飞升，达成完美结局！" }
    else g

/-- `GameCore.execute_action`.  The engine returns a dict with the same
four keys as `ActionResult`, modelled as the `ActionResult` itself.  The
source guard `if self.is_game_over or not self.character` is split into
the `none` match and the `is_game_over` test (same result, no effects).
The `try` around `action.execute` never fires in the embedded code. -/
def GameCore.execute_action (g : GameCore) (action_name : String) :
    GameCore × ActionResult :=
  match g.character with
  | none => (g, ⟨false, "游戏已结束", [], []⟩)
  | some ch =>
    if g.is_game_over then
      (g, ⟨false, "游戏已结束", [], []⟩)
    else
      match ActionFactory.get_action_by_name action_name with
      | none => (g, ⟨false, "未找到动作: " ++ action_name, [], []⟩)
      | some a =>
        if ¬ a.can_execute ch then
          (g, ⟨false, a.get_failure_message ch, [], []⟩)
        else
          let (ch, log, result) := a.execute ch g.game_log
          let g := { g with character := some ch, game_log := log }
          let g := g.check_game_over
          (g, result)

/-- The `character` sub-object of a save file: `get_status_summary()`
plus the optional `total_actions`/`actions` keys the loader probes for
(absent in files written by `save_game`, hence `Option`). -/
structure SaveCharacterData where
  name : String
  hp : Nat
  mp : Nat
  pills : Nat
  realm : String
  exp : Nat
  total_exp : Nat
  meditation_streak : Nat
  total_actions : Option Nat
  actions : Option Nat
deriving DecidableEq, Repr

/-- A parsed save file as read by `GameCore.load_game`.  File existence,
JSON parsing and I/O exceptions are external; a save that fails to read or
parse returns `false` before any of the logic modelled here runs. -/
structure SaveData where
  version : String
  character : SaveCharacterData
  difficulty : String
  game_log_entries : List String
  is_game_over : Bool
deriving DecidableEq, Repr

/-- The `realm_map` dict inside `GameCore.load_game`. -/
def realm_map (s : String) : Option RealmLevel :=
  if s = "炼气期" then some .qiRefining
  else if s = "筑基期" then some .foundation
  else if s = "结丹期" then some .coreFormation
  else if s = "元婴期" then some .nascentSoul
  else if s = "化神期" then some .spiritualTransformation
  else if s = "飞升" then some .ascension
  else none

/-- `GameCore.load_game` from the point where the save file has been read
and parsed.  The talent draw of the re-initialization is an explicit
input.  The source restores pills by `add_item("pill", saved - current)`,
whose net effect is `pill := saved`; the `if not total_actions` truthiness
test is `= 0`; the realm is restored only when `realm_map` recognizes the
saved name, otherwise that step is silently skipped; the log is replaced
only when the saved entry list is truthy (non-empty). -/
def GameCore.load_game (g : GameCore) (save_data : SaveData)
    (talent_value : Nat) : GameCore × Bool :=
  if save_data.version ≠ "2.0.0" then
    (g, false)
  else
    let character_data := save_data.character
    let (g, _) := g.init_game (some character_data.name)
      save_data.difficulty talent_value
    match g.character with
    | none => (g, true)
    | some ch =>
      let ch := { ch with health := { ch.health with current_hp := character_data.hp } }
      let ch := { ch with mana := { ch.mana with current_mp := character_data.mp } }
      let ch := { ch with inventory := { pill := character_data.pills } }
      let ch := { ch with meditation_streak := character_data.meditation_streak }
      let ta := character_data.total_actions.getD 0
      let ta := if ta = 0 then character_data.actions.getD 0 else ta
      let ch := { ch with total_actions := ta }
      let ch :=
        match realm_map character_data.realm with
        | some realm =>
          { ch with experience :=
            { total_experience := character_data.total_exp
              current_level_experience := character_data.exp
              current_realm := realm } }
        | none => ch
      let log :=
        if save_data.game_log_entries ≠ [] then
          { g.game_log with entries := save_data.game_log_entries }
        else g.game_log
      ({ g with
          character := some ch
          game_log := log
          is_game_over := save_data.is_game_over }, true)

/-! Concrete fixtures used to instantiate theorems with hypotheses. -/

/-- Fixture: a freshly created character with talent 5 after applying the
`normal` difficulty (1 starting pill), as in spec scenario 1. -/
def freshNormalChar : CharacterStats :=
  DifficultySettings.apply_difficulty_to_character
    (CharacterStats.init "无名修士" 5) "normal"

/-- Fixture: an initialized engine on `normal` difficulty, talent draw 5. -/
def sampleCore : GameCore :=
  ((GameCore.init).init_game (some "测试修士") "normal" 5).1

/-- Fixture: a well-versioned save whose `realm` string is not one of the
six tier display names. -/
def bogusRealmSave : SaveData :=
  { version := "2.0.0"
    character :=
      { name := "乙"
        hp := 42
        mp := 7
        pills := 2
        realm := "bogus"
        exp := 150
        total_exp := 150
        meditation_streak := 5
        total_actions := none
        actions := none }
    difficulty := "easy"
    game_log_entries := []
    is_game_over := false }

/-- Fixture: the fresh talent-5 character after 4 consecutive meditates
(streak counter 4), so the next meditate is the 5th of the streak. -/
def streak4Char : CharacterStats :=
  { freshNormalChar with meditation_streak := 4 }

/-- Fixture: the fresh talent-5 character with 1 hit point left. -/
def hp1Char : CharacterStats :=
  { freshNormalChar with health := { max_hp := 100, current_hp := 1 } }

/-- Fixture: engine whose character has 1 hit point left. -/
def hp1Core : GameCore :=
  { sampleCore with character := some hp1Char }

/-- Fixture: the fresh talent-5 character with only 10 mana (cultivate
needs 20). -/
def lowManaChar : CharacterStats :=
  { freshNormalChar with mana := { max_mp := 100, current_mp := 10 } }

/-- Fixture: engine whose character has only 10 mana. -/
def lowManaCore : GameCore :=
  { sampleCore with character := some lowManaChar }

/-! Helper lemmas. -/

/-- The threshold table is defined (finite) exactly off the terminal tier. -/
lemma realm_thresholds_eq_none_iff (r : RealmLevel) :
    realm_thresholds r = none ↔ r = .ascension := by
  cases r <;> simp [realm_thresholds]

/-- `apply_cost` never touches the meditation streak. -/
lemma apply_cost_meditation_streak (c : CharacterStats) (cost : Cost) :
    (c.apply_cost cost).1.meditation_streak = c.meditation_streak := by
  unfold CharacterStats.apply_cost
  split <;> rfl

/-- `apply_cost` with a zero pill cost never changes the pill count. -/
lemma apply_cost_pill_of_pills_zero (c : CharacterStats) (cost : Cost)
    (h : cost.pills = 0) :
    (c.apply_cost cost).1.inventory.pill = c.inventory.pill := by
  unfold CharacterStats.apply_cost
  split
  · simp [InventoryComponent.consume_item, h]
  · rfl

/-- Truncation of `base + t * (p/q)` (non-negative) is `Nat` arithmetic. -/
lemma pyIntNat_base_add_mul_div (b t p q : Nat) :
    pyIntNat ((b : ℚ) + (t : ℚ) * ((p : ℚ) / (q : ℚ))) = b + t * p / q := by
  unfold pyIntNat
  have h1 : (t : ℚ) * ((p : ℚ) / (q : ℚ)) = ((t * p : ℕ) : ℚ) / ((q : ℕ) : ℚ) := by
    push_cast
    ring
  rw [h1, Int.floor_nat_add, Rat.floor_natCast_div_natCast, ← Int.natCast_div,
    ← Nat.cast_add, Int.toNat_natCast]

/-- The `Nat`-level talent bonus used by the action embeddings agrees with
`int()` of the direct ℚ translation `get_talent_bonus`. -/
lemma talent_bonus_int_eq (t : TalentComponent) (base : Nat) (kind : String) :
    t.talent_bonus_int base kind = pyIntNat (t.get_talent_bonus base kind) := by
  unfold TalentComponent.talent_bonus_int TalentComponent.get_talent_bonus
  have h45 : (4 / 5 : ℚ) = ((4 : ℕ) : ℚ) / ((5 : ℕ) : ℚ) := by norm_num
  have h32 : (3 / 2 : ℚ) = ((3 : ℕ) : ℚ) / ((2 : ℕ) : ℚ) := by norm_num
  have h11 : (1 : ℚ) = ((1 : ℕ) : ℚ) / ((1 : ℕ) : ℚ) := by norm_num
  split_ifs <;>
    simp only [h45, h32, h11, pyIntNat_base_add_mul_div] <;>
    omega

/-- C1: for every non-negative amount, `add_experience` adds the amount to
both `total_experience` and `level_experience`; breakthrough happens
exactly when the tier has a finite threshold (i.e. is not Ascension) and
the updated level experience reaches it (equality included); a
breakthrough advances the tier by exactly one ladder step, subtracts the
old tier's threshold from the level experience (the excess overflows) and
returns a message naming the new tier; otherwise the call returns
`(false, none)` with the tier unchanged. -/
theorem add_experience_single_step (e : ExperienceComponent) (amount : Nat) :
    (e.add_experience amount).1.total_experience
        = e.total_experience + amount ∧
    ((e.add_experience amount).2.1 = true ↔
      ∃ t, realm_thresholds e.current_realm = some t ∧
        t ≤ e.current_level_experience + amount) ∧
    ((e.add_experience amount).2.1 = true →
      e.current_realm ≠ .ascension ∧
      (e.add_experience amount).1.current_realm = nextRealm e.current_realm ∧
      (∀ t, realm_thresholds e.current_realm = some t →
        (e.add_experience amount).1.current_level_experience + t
          = e.current_level_experience + amount) ∧
      (e.add_experience amount).2.2
        = some ("突破至 " ++ (nextRealm e.current_realm).value ++ "！")) ∧
    ((e.add_experience amount).2.1 = false →
      (e.add_experience amount).1.current_realm = e.current_realm ∧
      (e.add_experience amount).1.current_level_experience
        = e.current_level_experience + amount ∧
      (e.add_experience amount).2.2 = none) := by
  obtain ⟨tot, lvl, realm⟩ := e
  unfold ExperienceComponent.add_experience
  cases hth : realm_thresholds realm with
  | none =>
    have hasc : realm = .ascension := (realm_thresholds_eq_none_iff realm).1 hth
    subst hasc
    simp
  | some t =>
    have hne : realm ≠ .ascension := by
      intro h
      rw [h] at hth
      simp [realm_thresholds] at hth
    simp only [hth]
    by_cases hge : t ≤ lvl + amount
    · rw [if_pos ⟨hge, hne⟩]
      refine ⟨rfl, ?_, ?_, ?_⟩
      · simp [hge]
      · intro _
        refine ⟨hne, rfl, ?_, rfl⟩
        intro t2 ht2
        injection ht2 with ht2
        subst ht2
        show lvl + amount - t + t = lvl + amount
        omega
      · intro h
        simp at h
    · rw [if_neg (fun hc => hge hc.1)]
      refine ⟨rfl, ?_, ?_, ?_⟩
      · simp [hge]
      · intro h
        simp at h
      · intro _
        exact ⟨rfl, rfl, rfl⟩

/-- Witness for `add_experience_single_step`: spec scenario 4,
`level_experience = 95` in QiRefining plus 10 experience crosses the
100 threshold into Foundation with 5 left over. -/
theorem add_experience_single_step_witness :
    (ExperienceComponent.add_experience ⟨0, 95, .qiRefining⟩ 10).2.1 = true ∧
    RealmLevel.qiRefining ≠ .ascension ∧
    (ExperienceComponent.add_experience ⟨0, 95, .qiRefining⟩ 10).1.current_realm
      = nextRealm .qiRefining ∧
    (∀ t, realm_thresholds RealmLevel.qiRefining = some t →
      (ExperienceComponent.add_experience ⟨0, 95, .qiRefining⟩ 10).1.current_level_experience + t
        = 95 + 10) ∧
    (ExperienceComponent.add_experience ⟨0, 95, .qiRefining⟩ 10).2.2
      = some ("突破至 " ++ (nextRealm RealmLevel.qiRefining).value ++ "！") :=
  ⟨by decide,
   (add_experience_single_step ⟨0, 95, .qiRefining⟩ 10).2.2.1 (by decide)⟩

/-- C3: `can_perform_action` is exactly the three resource comparisons
(`cost.time` is never consulted: changing it changes nothing); when it
fails, `apply_cost` returns `false` and mutates nothing; when it holds,
`apply_cost` consumes exactly `cost.hp` health, `cost.mp` mana and
`cost.pills` pills, increments `total_actions` by one, leaves every other
field untouched and returns `true`. -/
theorem apply_cost_spec (c : CharacterStats) (cost : Cost) :
    (c.can_perform_action cost = true ↔
      (cost.hp ≤ c.health.current_hp ∧ cost.mp ≤ c.mana.current_mp ∧
       cost.pills ≤ c.inventory.pill)) ∧
    (∀ t, c.can_perform_action { cost with time := t }
        = c.can_perform_action cost) ∧
    (c.can_perform_action cost = false → c.apply_cost cost = (c, false)) ∧
    (c.can_perform_action cost = true →
      (c.apply_cost cost).2 = true ∧
      (c.apply_cost cost).1.health.current_hp + cost.hp
        = c.health.current_hp ∧
      (c.apply_cost cost).1.mana.current_mp + cost.mp = c.mana.current_mp ∧
      (c.apply_cost cost).1.inventory.pill + cost.pills
        = c.inventory.pill ∧
      (c.apply_cost cost).1.total_actions = c.total_actions + 1 ∧
      (c.apply_cost cost).1.name = c.name ∧
      (c.apply_cost cost).1.experience = c.experience ∧
      (c.apply_cost cost).1.talent = c.talent ∧
      (c.apply_cost cost).1.meditation_streak = c.meditation_streak ∧
      (c.apply_cost cost).1.health.max_hp = c.health.max_hp ∧
      (c.apply_cost cost).1.mana.max_mp = c.mana.max_mp) := by
  refine ⟨?_, fun t => rfl, ?_, ?_⟩
  · simp [CharacterStats.can_perform_action, InventoryComponent.get_item_count]
  · intro h
    simp [CharacterStats.apply_cost, h]
  · intro h
    have h3 : cost.hp ≤ c.health.current_hp ∧ cost.mp ≤ c.mana.current_mp ∧
        cost.pills ≤ c.inventory.pill := by
      simpa [CharacterStats.can_perform_action,
        InventoryComponent.get_item_count] using h
    refine ⟨?_, ?_, ?_, ?_, ?_, ?_, ?_, ?_, ?_, ?_, ?_⟩ <;>
      simp [CharacterStats.apply_cost, h, HealthComponent.consume,
        ManaComponent.consume, InventoryComponent.consume_item,
        h3.1, h3.2.1, h3.2.2]

/-- Witness for `apply_cost_spec`: the fresh talent-5 character can afford
the cultivate cost and paying it removes exactly 20 mana. -/
theorem apply_cost_spec_witness :
    freshNormalChar.can_perform_action CultivateAction.get_cost = true ∧
    (freshNormalChar.apply_cost CultivateAction.get_cost).2 = true ∧
    (freshNormalChar.apply_cost CultivateAction.get_cost).1.mana.current_mp
        + 20 = freshNormalChar.mana.current_mp :=
  ⟨by decide,
   ((apply_cost_spec freshNormalChar CultivateAction.get_cost).2.2.2
     (by decide)).1,
   ((apply_cost_spec freshNormalChar CultivateAction.get_cost).2.2.2
     (by decide)).2.2.1⟩

/-- C4: `ManaComponent.consume` is all-or-nothing (no mutation and failure
when `current_mp < amount`, exact subtraction and success otherwise, with
the exact-equality boundary succeeding and leaving 0), whereas
`HealthComponent.consume` never fails: it clamps at 0 and returns the
amount actually removed. -/
theorem resource_consume_spec :
    (∀ (m : ManaComponent) (amount : Nat),
        (m.current_mp < amount → m.consume amount = (m, false)) ∧
        (amount ≤ m.current_mp →
          m.consume amount
            = ({ m with current_mp := m.current_mp - amount }, true))) ∧
    (∀ m : ManaComponent,
        (m.consume m.current_mp).1.current_mp = 0 ∧
        (m.consume m.current_mp).2 = true) ∧
    (∀ (h : HealthComponent) (amount : Nat),
        (h.consume amount).1.current_hp = h.current_hp - amount ∧
        (h.consume amount).1.max_hp = h.max_hp ∧
        (h.consume amount).2 = min amount h.current_hp) := by
  refine ⟨?_, ?_, ?_⟩
  · intro m amount
    constructor
    · intro hlt
      unfold ManaComponent.consume
      rw [if_neg (by omega)]
    · intro hle
      unfold ManaComponent.consume
      rw [if_pos hle]
  · intro m
    simp [ManaComponent.consume]
  · intro h amount
    refine ⟨rfl, rfl, ?_⟩
    show h.current_hp - (h.current_hp - amount) = min amount h.current_hp
    omega

/-- Witness for `resource_consume_spec`: a 30-mana pool rejects a 31-point
consume unchanged and consumes exactly 30 down to zero. -/
theorem resource_consume_spec_witness :
    (⟨100, 30⟩ : ManaComponent).current_mp < 31 ∧
    ManaComponent.consume ⟨100, 30⟩ 31 = (⟨100, 30⟩, false) ∧
    ManaComponent.consume ⟨100, 30⟩ 30 = (⟨100, 0⟩, true) :=
  ⟨by decide,
   (resource_consume_spec.1 ⟨100, 30⟩ 31).1 (by decide),
   (resource_consume_spec.1 ⟨100, 30⟩ 30).2 (by decide)⟩

/-- C2 counterexample: on the fresh talent-5 normal-difficulty character a
single meditate is successful but does NOT increase `mana.current` by 11:
`int(8 + 5*0.8) = int(12.0) = 12`, so the spec value 11 is an arithmetic
slip. -/
theorem meditate_mana_gain_not_eleven :
    (MeditateAction.execute freshNormalChar GameLog.init).2.2.success
        = true ∧
    (MeditateAction.execute freshNormalChar GameLog.init).1.mana.current_mp
        ≠ freshNormalChar.mana.current_mp + 11 := by
  decide

/-- C2 (amended): a fresh character with talent 5 on normal difficulty
(1 starting pill) meditating once gets `success = true`,
`health.current = 99`, mana increased by `int(8 + 5*0.8) = 12` (capped at
max), `total_experience` increased by `int(3 + 5*0.8) = 7`, and
`meditation_streak = 1`. -/
theorem fresh_talent5_meditate_scenario :
    (MeditateAction.execute freshNormalChar GameLog.init).2.2.success
        = true ∧
    (MeditateAction.execute freshNormalChar GameLog.init).1.health.current_hp
        = 99 ∧
    (MeditateAction.execute freshNormalChar GameLog.init).1.mana.current_mp
        = freshNormalChar.mana.current_mp + 12 ∧
    pyIntNat (TalentComponent.get_talent_bonus ⟨5⟩ 8 "meditate") = 12 ∧
    (MeditateAction.execute freshNormalChar GameLog.init).1.mana.current_mp
        ≤ (MeditateAction.execute freshNormalChar GameLog.init).1.mana.max_mp ∧
    (MeditateAction.execute
        freshNormalChar GameLog.init).1.experience.total_experience
        = freshNormalChar.experience.total_experience + 7 ∧
    pyIntNat (TalentComponent.get_talent_bonus ⟨5⟩ 3 "meditate") = 7 ∧
    (MeditateAction.execute
        freshNormalChar GameLog.init).1.meditation_streak = 1 := by
  refine ⟨by decide, by decide, by decide, ?_, by decide, by decide, ?_,
    by decide⟩
  · rw [← show ((8 : ℕ) : ℚ) = (8 : ℚ) by norm_num, ← talent_bonus_int_eq]
    decide
  · rw [← show ((3 : ℕ) : ℚ) = (3 : ℚ) by norm_num, ← talent_bonus_int_eq]
    decide

/-- C10: every action in the catalog with a passing eligibility check can
afford its own cost, so `apply_cost` (whose boolean each `execute` method
discards) returns `true` and its failure branch is unreachable from an
eligible execution. -/
theorem can_execute_implies_apply_cost_succeeds (a : GameAction)
    (c : CharacterStats) (h : a.can_execute c = true) :
    (c.apply_cost a.get_cost).2 = true := by
  have hafford : c.can_perform_action a.get_cost = true := by
    cases a <;>
      simp_all [GameAction.can_execute, GameAction.get_cost,
        MeditateAction.can_execute, ConsumePillAction.can_execute,
        CultivateAction.can_execute, WaitAction.can_execute,
        MeditateAction.get_cost, ConsumePillAction.get_cost,
        CultivateAction.get_cost, WaitAction.get_cost,
        CharacterStats.is_alive, HealthComponent.is_alive,
        CharacterStats.can_perform_action,
        InventoryComponent.get_item_count] <;>
      omega
  simp [CharacterStats.apply_cost, hafford]

/-- Witness for `can_execute_implies_apply_cost_succeeds`: the fresh
talent-5 character is eligible for cultivate and paying its cost
succeeds. -/
theorem can_execute_implies_apply_cost_succeeds_witness :
    GameAction.cultivate.can_execute freshNormalChar = true ∧
    (freshNormalChar.apply_cost GameAction.cultivate.get_cost).2 = true :=
  ⟨by decide,
   can_execute_implies_apply_cost_succeeds .cultivate freshNormalChar
     (by decide)⟩

/-- `add_entry` keeps the capacity field. -/
lemma add_entry_max_entries (glog : GameLog) (m : String) :
    (glog.add_entry m).max_entries = glog.max_entries := by
  unfold GameLog.add_entry
  dsimp only
  split <;> rfl

/-- With a positive capacity the entry just added is always last. -/
lemma add_entry_getLast (glog : GameLog) (m : String)
    (hmax : 1 ≤ glog.max_entries) :
    (glog.add_entry m).entries.getLast? = some m := by
  unfold GameLog.add_entry
  dsimp only
  split
  next hlen =>
    cases hes : glog.entries with
    | nil =>
      rw [hes] at hlen
      simp at hlen
      omega
    | cons x xs =>
      simp [List.getLast?_concat]
  next =>
    simp [List.getLast?_concat]

/-- C7: a successful meditate increments `meditation_streak` by exactly 1,
granting exactly one pill and a streak-bonus note in the message on every
5th consecutive meditate (new streak divisible by 5) and leaving the pill
count unchanged otherwise; every successful non-meditate action resets
`meditation_streak` to 0; a failed execution changes nothing, so the
streak never decreases except by the reset. -/
theorem meditation_streak_spec (a : GameAction) (c : CharacterStats)
    (log : GameLog) :
    ((a.execute c log).2.2.success = true → a = .meditate →
      (a.execute c log).1.meditation_streak = c.meditation_streak + 1 ∧
      ((c.meditation_streak + 1) % 5 = 0 →
        (a.execute c log).1.inventory.pill = c.inventory.pill + 1 ∧
        ∃ p, (a.execute c log).2.2.message
          = p ++ ("连续打坐" ++ toString (c.meditation_streak + 1) ++
              "次，获得" ++ toString 1 ++ "颗丹药！")) ∧
      ((c.meditation_streak + 1) % 5 ≠ 0 →
        (a.execute c log).1.inventory.pill = c.inventory.pill)) ∧
    ((a.execute c log).2.2.success = true → a ≠ .meditate →
      (a.execute c log).1.meditation_streak = 0) ∧
    ((a.execute c log).2.2.success = false → (a.execute c log).1 = c) := by
  cases a
  case meditate =>
    by_cases h : MeditateAction.can_execute c
    · have hs := apply_cost_meditation_streak c MeditateAction.get_cost
      have hp := apply_cost_pill_of_pills_zero c MeditateAction.get_cost rfl
      refine ⟨fun _ _ => ?_, fun _ hne => absurd rfl hne, fun hf => ?_⟩
      · simp only [GameAction.execute]
        unfold MeditateAction.execute
        rw [if_neg (by simp [h])]
        refine ⟨by simp [hs], fun h5 => ⟨?_, ?_⟩, fun h5 => ?_⟩
        · simp [InventoryComponent.add_item, hs, hp, h5]
        · simp only [hs, h5]
          simp [hs, h5]
          split <;> exact ⟨_, rfl⟩
        · simp [hs, hp, h5]
      · simp only [GameAction.execute] at hf
        unfold MeditateAction.execute at hf
        rw [if_neg (by simp [h])] at hf
        simp at hf
    · refine ⟨fun hsucc _ => ?_, fun hsucc _ => ?_, fun _ => ?_⟩ <;>
        simp only [GameAction.execute] at * <;>
        unfold MeditateAction.execute at * <;>
        rw [if_pos h] at *
      all_goals simp at hsucc
  case consumePill =>
    by_cases h : ConsumePillAction.can_execute c
    · refine ⟨fun _ hme => absurd hme (by decide), fun _ _ => ?_,
        fun hf => ?_⟩
      · simp only [GameAction.execute]
        unfold ConsumePillAction.execute
        rw [if_neg (by simp [h])]
      · simp only [GameAction.execute] at hf
        unfold ConsumePillAction.execute at hf
        rw [if_neg (by simp [h])] at hf
        simp at hf
    · refine ⟨fun hsucc _ => ?_, fun hsucc _ => ?_, fun _ => ?_⟩ <;>
        simp only [GameAction.execute] at * <;>
        unfold ConsumePillAction.execute at * <;>
        rw [if_pos h] at *
      all_goals simp at hsucc
  case cultivate =>
    by_cases h : CultivateAction.can_execute c
    · refine ⟨fun _ hme => absurd hme (by decide), fun _ _ => ?_,
        fun hf => ?_⟩
      · simp only [GameAction.execute]
        unfold CultivateAction.execute
        rw [if_neg (by simp [h])]
      · simp only [GameAction.execute] at hf
        unfold CultivateAction.execute at hf
        rw [if_neg (by simp [h])] at hf
        simp at hf
    · refine ⟨fun hsucc _ => ?_, fun hsucc _ => ?_, fun _ => ?_⟩ <;>
        simp only [GameAction.execute] at * <;>
        unfold CultivateAction.execute at * <;>
        rw [if_pos h] at *
      all_goals simp at hsucc
  case wait =>
    by_cases h : WaitAction.can_execute c
    · refine ⟨fun _ hme => absurd hme (by decide), fun _ _ => ?_,
        fun hf => ?_⟩
      · simp only [GameAction.execute]
        unfold WaitAction.execute
        rw [if_neg (by simp [h])]
      · simp only [GameAction.execute] at hf
        unfold WaitAction.execute at hf
        rw [if_neg (by simp [h])] at hf
        simp at hf
    · refine ⟨fun hsucc _ => ?_, fun hsucc _ => ?_, fun _ => ?_⟩ <;>
        simp only [GameAction.execute] at * <;>
        unfold WaitAction.execute at * <;>
        rw [if_pos h] at *
      all_goals simp at hsucc

/-- Witness for `meditation_streak_spec`: the 5th consecutive meditate on
the fresh talent-5 character raises the streak to 5, grants one pill and
appends the streak-bonus note. -/
theorem meditation_streak_spec_witness :
    (GameAction.meditate.execute streak4Char GameLog.init).2.2.success
        = true ∧
    (GameAction.meditate.execute streak4Char GameLog.init).1.meditation_streak
        = streak4Char.meditation_streak + 1 ∧
    (GameAction.meditate.execute streak4Char GameLog.init).1.inventory.pill
        = streak4Char.inventory.pill + 1 ∧
    ∃ p, (GameAction.meditate.execute streak4Char GameLog.init).2.2.message
        = p ++ ("连续打坐" ++ toString (streak4Char.meditation_streak + 1) ++
            "次，获得" ++ toString 1 ++ "颗丹药！") :=
  ⟨by decide,
   ((meditation_streak_spec .meditate streak4Char GameLog.init).1
     (by decide) rfl).1,
   (((meditation_streak_spec .meditate streak4Char GameLog.init).1
     (by decide) rfl).2.1 (by decide)).1,
   (((meditation_streak_spec .meditate streak4Char GameLog.init).1
     (by decide) rfl).2.1 (by decide)).2⟩


/-- C5: `execute_action` returns a failure result and mutates nothing on
each failure path: game over or uninitialized character (generic
game-has-ended message for every action name, known or not), unknown
action name (not-found message naming it), and ineligible action (the
action specific failure message); repeating the same ineligible call gives
the identical result on the identical state. -/
theorem execute_action_failure_paths :
    (∀ (g : GameCore) (action_name : String),
      g.is_game_over = true ∨ g.character = none →
      g.execute_action action_name
        = (g, ⟨false, "游戏已结束", [], []⟩)) ∧
    (∀ (g : GameCore) (ch : CharacterStats) (action_name : String),
      g.character = some ch → g.is_game_over = false →
      ActionFactory.get_action_by_name action_name = none →
      g.execute_action action_name
        = (g, ⟨false, "未找到动作: " ++ action_name, [], []⟩)) ∧
    (∀ (g : GameCore) (ch : CharacterStats) (action_name : String)
        (a : GameAction),
      g.character = some ch → g.is_game_over = false →
      ActionFactory.get_action_by_name action_name = some a →
      a.can_execute ch = false →
      g.execute_action action_name
          = (g, ⟨false, a.get_failure_message ch, [], []⟩) ∧
      ((g.execute_action action_name).1).execute_action action_name
          = (g, ⟨false, a.get_failure_message ch, [], []⟩)) := by
  refine ⟨?_, ?_, ?_⟩
  · intro g action_name hor
    unfold GameCore.execute_action
    cases hc : g.character with
    | none => rfl
    | some ch =>
      rcases hor with hover | hnone
      · rw [hover]
        simp
      · rw [hc] at hnone
        exact Option.noConfusion hnone
  · intro g ch action_name hch hover hlook
    unfold GameCore.execute_action
    simp [hch, hover, hlook]
  · intro g ch action_name a hch hover hlook hcan
    have h1 : g.execute_action action_name
        = (g, ⟨false, a.get_failure_message ch, [], []⟩) := by
      unfold GameCore.execute_action
      simp [hch, hover, hlook, hcan]
    refine ⟨h1, ?_⟩
    rw [h1]
    exact h1

/-- Witness for `execute_action_failure_paths`: a never-initialized core
rejects a known action with the game-ended message; an initialized core
rejects an unknown name; a 10-mana character fails cultivate twice with
identical results and unchanged state. -/
theorem execute_action_failure_paths_witness :
    GameCore.init.execute_action "打坐"
        = (GameCore.init, ⟨false, "游戏已结束", [], []⟩) ∧
    lowManaCore.execute_action "nope"
        = (lowManaCore, ⟨false, "未找到动作: " ++ "nope", [], []⟩) ∧
    lowManaCore.execute_action "修炼"
        = (lowManaCore,
           ⟨false, GameAction.cultivate.get_failure_message lowManaChar,
            [], []⟩) ∧
    ((lowManaCore.execute_action "修炼").1).execute_action "修炼"
        = (lowManaCore,
           ⟨false, GameAction.cultivate.get_failure_message lowManaChar,
            [], []⟩) :=
  ⟨execute_action_failure_paths.1 GameCore.init "打坐" (Or.inr rfl),
   execute_action_failure_paths.2.1 lowManaCore lowManaChar "nope" rfl
     (by decide) (by decide),
   (execute_action_failure_paths.2.2 lowManaCore lowManaChar "修炼"
     .cultivate rfl (by decide) (by decide) (by decide)).1,
   (execute_action_failure_paths.2.2 lowManaCore lowManaChar "修炼"
     .cultivate rfl (by decide) (by decide) (by decide)).2⟩

/-- C6: at `health.current = 1` the wait action applies its 1-point cost
(health reaches 0) and then its fixed 2-point restore, ending alive at 2;
meditate at the same health ends at 0 with `is_alive()` false, and the
engine post-check sets `is_game_over` and appends the death log line. -/
theorem hp_one_wait_vs_meditate :
    (∀ (c : CharacterStats) (log : GameLog),
      c.health.current_hp = 1 → c.health.max_hp = 100 →
      (WaitAction.execute c log).2.2.success = true ∧
      (WaitAction.execute c log).1.health.current_hp = 2 ∧
      (WaitAction.execute c log).1.is_alive = true) ∧
    (∀ (g : GameCore) (ch : CharacterStats),
      g.character = some ch → g.is_game_over = false →
      ch.health.current_hp = 1 → g.game_log.max_entries = 100 →
      ∃ ch2, (g.execute_action "打坐").1.character = some ch2 ∧
        ch2.health.current_hp = 0 ∧
        ch2.is_alive = false ∧
        (g.execute_action "打坐").1.is_game_over = true ∧
        (g.execute_action "打坐").1.game_log.entries.getLast?
          = some "修炼失败，游戏结束。") := by
  constructor
  · intro c log h1 hmax
    have halive : WaitAction.can_execute c = true := by
      simp [WaitAction.can_execute, CharacterStats.is_alive,
        HealthComponent.is_alive, h1]
    have hafford : c.can_perform_action WaitAction.get_cost = true := by
      simp [CharacterStats.can_perform_action,
        InventoryComponent.get_item_count, WaitAction.get_cost, h1]
    simp only [WaitAction.get_cost] at hafford
    unfold WaitAction.execute
    rw [if_neg (by simp [halive])]
    refine ⟨rfl, ?_, ?_⟩ <;>
      simp [CharacterStats.apply_cost, hafford, HealthComponent.consume,
        HealthComponent.restore, CharacterStats.is_alive,
        HealthComponent.is_alive, WaitAction.get_cost, h1, hmax]
  · intro g ch hch hover h1 hmax
    have halive : MeditateAction.can_execute ch = true := by
      simp [MeditateAction.can_execute, CharacterStats.is_alive,
        HealthComponent.is_alive, h1]
    have hafford : ch.can_perform_action MeditateAction.get_cost = true := by
      simp [CharacterStats.can_perform_action,
        InventoryComponent.get_item_count, MeditateAction.get_cost, h1]
    simp only [MeditateAction.get_cost] at hafford
    have hhp : (MeditateAction.execute ch g.game_log).1.health.current_hp
        = 0 := by
      unfold MeditateAction.execute
      rw [if_neg (by simp [halive])]
      simp [CharacterStats.apply_cost, hafford, HealthComponent.consume,
        MeditateAction.get_cost, h1]
    have hdead : (MeditateAction.execute ch g.game_log).1.is_alive
        = false := by
      simp [CharacterStats.is_alive, HealthComponent.is_alive, hhp]
    have hlogmax : (MeditateAction.execute ch g.game_log).2.1.max_entries
        = g.game_log.max_entries := by
      unfold MeditateAction.execute
      rw [if_neg (by simp [halive])]
      simp [add_entry_max_entries]
    have heq : g.execute_action "打坐"
        = (GameCore.check_game_over
            { g with
                character := some (MeditateAction.execute ch g.game_log).1
                game_log := (MeditateAction.execute ch g.game_log).2.1 },
           (MeditateAction.execute ch g.game_log).2.2) := by
      unfold GameCore.execute_action
      simp only [hch]
      rw [hover]
      have hlook : ActionFactory.get_action_by_name "打坐"
          = some .meditate := by decide
      simp only [Bool.false_eq_true, if_false, hlook,
        GameAction.can_execute, halive, not_true_eq_false]
      rfl
    rw [heq]
    unfold GameCore.check_game_over
    simp only [hdead]
    rw [if_pos (by simp [hdead])]
    refine ⟨(MeditateAction.execute ch g.game_log).1, rfl, hhp, hdead,
      rfl, ?_⟩
    exact add_entry_getLast _ _ (by rw [hlogmax, hmax]; omega)

/-- Witness for `hp_one_wait_vs_meditate`: the concrete 1-hp character and
engine. -/
theorem hp_one_wait_vs_meditate_witness :
    hp1Char.health.current_hp = 1 ∧
    hp1Char.health.max_hp = 100 ∧
    (WaitAction.execute hp1Char GameLog.init).1.health.current_hp = 2 ∧
    hp1Core.character = some hp1Char ∧
    hp1Core.is_game_over = false ∧
    hp1Core.game_log.max_entries = 100 ∧
    ∃ ch2, (hp1Core.execute_action "打坐").1.character = some ch2 ∧
      ch2.health.current_hp = 0 ∧
      ch2.is_alive = false ∧
      (hp1Core.execute_action "打坐").1.is_game_over = true ∧
      (hp1Core.execute_action "打坐").1.game_log.entries.getLast?
        = some "修炼失败，游戏结束。" :=
  ⟨rfl, rfl,
   (hp_one_wait_vs_meditate.1 hp1Char GameLog.init rfl rfl).2.1,
   rfl, by decide, by decide,
   hp_one_wait_vs_meditate.2 hp1Core hp1Char rfl (by decide) rfl
     (by decide)⟩

/-- C8 counterexample: the talent draw of `TalentComponent.__init__` is
`randint(1, 10)` regardless of difficulty, and
`apply_difficulty_to_character` never touches it, so initializing on
`easy` with the legitimate draw 1 yields talent 1, outside the preset
range [5, 10] the claim asserts — only the 3 starting pills are applied. -/
theorem easy_difficulty_talent_not_restricted :
    ((1 : Nat) ≥ 1 ∧ (1 : Nat) ≤ 10) ∧
    ∃ ch, ((GameCore.init.init_game (some "测试") "easy" 1).1).character
        = some ch ∧
      ch.talent.base_talent = 1 ∧
      ¬ (5 ≤ ch.talent.base_talent) ∧
      ch.inventory.pill = 3 :=
  ⟨by decide, _, rfl, rfl, by decide, by decide⟩

/-- C8 (amended): initialization stores whatever talent value was drawn
(uniform on [1,10] in the source, never narrowed by difficulty: the
`talent_range` entries are configuration only) and applies just the
preset starting pills — 3 for easy, 1 for normal, 0 for hard — with any
unrecognized difficulty string falling back to the normal preset. -/
theorem init_game_difficulty_spec :
    (∀ (g : GameCore) (character_name : Option String) (difficulty : String)
        (talent_value : Nat),
      ∃ ch, ((g.init_game character_name difficulty
          talent_value).1).character = some ch ∧
        ch.talent.base_talent = talent_value ∧
        ch.inventory.pill
          = (DifficultySettings.get_difficulty_settings
              difficulty).starting_pills) ∧
    (DifficultySettings.get_difficulty_settings "easy").starting_pills
        = 3 ∧
    (DifficultySettings.get_difficulty_settings "normal").starting_pills
        = 1 ∧
    (DifficultySettings.get_difficulty_settings "hard").starting_pills
        = 0 ∧
    (∀ d, d ≠ "easy" → d ≠ "normal" → d ≠ "hard" →
      DifficultySettings.get_difficulty_settings d
        = DifficultySettings.get_difficulty_settings "normal") := by
  refine ⟨?_, rfl, rfl, rfl, ?_⟩
  · intro g character_name difficulty talent_value
    refine ⟨_, rfl, rfl, ?_⟩
    simp [GameCore.init_game,
      DifficultySettings.apply_difficulty_to_character, CharacterStats.init,
      InventoryComponent.init, InventoryComponent.add_item]
  · intro d h1 h2 h3
    unfold DifficultySettings.get_difficulty_settings
    rw [if_neg h1, if_neg h2, if_neg h3]
    rfl

/-- Witness for `init_game_difficulty_spec`: a hard-difficulty
initialization with draw 6 ends with talent 6 and 0 pills, and the
unrecognized difficulty "impossible" falls back to the normal preset. -/
theorem init_game_difficulty_spec_witness :
    (∃ ch, ((GameCore.init.init_game none "hard" 6).1).character
        = some ch ∧
      ch.talent.base_talent = 6 ∧
      ch.inventory.pill
        = (DifficultySettings.get_difficulty_settings "hard").starting_pills) ∧
    DifficultySettings.get_difficulty_settings "impossible"
      = DifficultySettings.get_difficulty_settings "normal" :=
  ⟨init_game_difficulty_spec.1 GameCore.init none "hard" 6,
   init_game_difficulty_spec.2.2.2.2 "impossible" (by decide)
     (by decide) (by decide)⟩

/-- C9 counterexample: a save with the expected version but the
unrecognized realm name "bogus" is NOT rejected: `load_game` returns true
and leaves a half-updated character — hp taken from the save, progression
silently left at the freshly initialized QiRefining with 0 experience. -/
theorem load_game_unknown_realm_accepted :
    bogusRealmSave.version = "2.0.0" ∧
    realm_map bogusRealmSave.character.realm = none ∧
    (sampleCore.load_game bogusRealmSave 3).2 = true ∧
    ∃ ch, (sampleCore.load_game bogusRealmSave 3).1.character = some ch ∧
      ch.health.current_hp = 42 ∧
      ch.experience.current_realm = .qiRefining ∧
      ch.experience.current_level_experience = 0 :=
  ⟨rfl, by decide, by decide, _, rfl, by decide, by decide, by decide⟩

/-- C9 (amended): a mismatched version string makes `load_game` return
false with the live state completely untouched; but an unrecognized realm
name is not treated as an error: the load still returns true, restoring
hp (and the other scalar fields) from the save while silently keeping the
freshly re-initialized progression (QiRefining, 0 experience). -/
theorem load_game_validation_spec :
    (∀ (g : GameCore) (save_data : SaveData) (talent_value : Nat),
      save_data.version ≠ "2.0.0" →
      g.load_game save_data talent_value = (g, false)) ∧
    (∀ (g : GameCore) (save_data : SaveData) (talent_value : Nat),
      save_data.version = "2.0.0" →
      realm_map save_data.character.realm = none →
      (g.load_game save_data talent_value).2 = true ∧
      ∃ ch, (g.load_game save_data talent_value).1.character = some ch ∧
        ch.health.current_hp = save_data.character.hp ∧
        ch.experience = ExperienceComponent.init) := by
  constructor
  · intro g save_data talent_value hv
    unfold GameCore.load_game
    rw [if_pos hv]
  · intro g save_data talent_value hv hrealm
    unfold GameCore.load_game
    rw [if_neg (by simp [hv])]
    simp only [GameCore.init_game, hrealm]
    exact ⟨trivial, _, rfl, rfl, rfl⟩

/-- Witness for `load_game_validation_spec`: a version-1.0 save is
rejected with the engine unchanged; the well-versioned bogus-realm save
is accepted with defaulted progression. -/
theorem load_game_validation_spec_witness :
    sampleCore.load_game { bogusRealmSave with version := "1.0" } 3
        = (sampleCore, false) ∧
    (sampleCore.load_game bogusRealmSave 3).2 = true ∧
    ∃ ch, (sampleCore.load_game bogusRealmSave 3).1.character = some ch ∧
      ch.health.current_hp = bogusRealmSave.character.hp ∧
      ch.experience = ExperienceComponent.init :=
  ⟨load_game_validation_spec.1 sampleCore
     { bogusRealmSave with version := "1.0" } 3 (by decide),
   load_game_validation_spec.2 sampleCore bogusRealmSave 3 rfl (by decide)⟩

end Xiuxian
